import Mathlib

/-!
Shallow embedding of the Repox API client (`repox/repox.py`).

The client is a thin wrapper around a remote REST service.  All remote
interaction is made explicit here: read-then-write update operations take
the fetched current representation (`old_data`) as a parameter, and write
operations take a `server` function mapping the submitted payload to the
HTTP status code of the response.  Each embedded function computes exactly
the payload the Python source would submit and the value it would return.

Python `dict` access `d[k]` on a possibly missing key is modelled with
`Option`: a `none` result of an embedded operation corresponds to an
uncaught `KeyError` aborting the Python call.  JSON objects whose values
are strings are modelled as association lists `List (String × String)`
(the dict literals of the source have distinct keys, and insertion order
is the iteration order, as in Python).
-/

namespace Repox

/-- Dictionary lookup `d[k]` for a string-valued JSON object, returning
`none` (a `KeyError`) when the key is absent. -/
def lookupEntry {α : Type} (d : List (String × α)) (k : String) : Option α :=
  (d.find? (fun p => p.1 == k)).map (fun p => p.2)

/-! ### Aggregators (`create_aggregator`, `update_aggregator`) -/

/-- JSON payload submitted by the aggregator write operations: the dict
`{"id": ..., "name": ..., "nameCode": ..., "homepage": ...}`. -/
structure AggregatorPayload where
  id : String
  name : String
  nameCode : String
  homepage : String
deriving DecidableEq, Repr

/-- Fetched representation of an aggregator, as returned by
`get_aggregator`.  Fields are `Option`s so that a representation missing a
key (service inconsistency) can be expressed; reading a `none` field is a
`KeyError`. -/
structure AggregatorData where
  name : Option String
  nameCode : Option String
  homepage : Option String
deriving DecidableEq, Repr

/-- Payload built by `Repox.create_aggregator` (repox.py lines 148-155):
an empty `name_code` is replaced by `aggregator_id` before the POST. -/
def create_aggregator (aggregator_id aggregator_name name_code homepage : String) :
    AggregatorPayload :=
  let name_code := if name_code = "" then aggregator_id else name_code
  { id := aggregator_id, name := aggregator_name, nameCode := name_code,
    homepage := homepage }

/-- Merge performed by `Repox.update_aggregator` (repox.py lines 190-202)
on the fetched `old_data`; the result is the payload of the PUT request.
Source line 196 reads `homepage == old_data["homepage"]`: a comparison,
not an assignment, so the looked-up value is discarded and `homepage`
keeps the caller's value (the empty sentinel when the caller omitted it).
The lookup itself still happens in that branch, so a missing `homepage`
key in `old_data` is still a `KeyError`. -/
def update_aggregator (aggregator_id aggregator_name name_code homepage : String)
    (old_data : AggregatorData) : Option AggregatorPayload := do
  let aggregator_name ← if aggregator_name = "" then old_data.name else pure aggregator_name
  let name_code ← if name_code = "" then old_data.nameCode else pure name_code
  let _ ← if homepage = "" then old_data.homepage else pure homepage
  pure { id := aggregator_id, name := aggregator_name, nameCode := name_code,
         homepage := homepage }

/-! ### Providers (`update_provider`) -/

/-- JSON payload submitted by the PUT of `update_provider`. -/
structure ProviderPayload where
  id : String
  name : String
  country : String
  countryCode : String
  description : String
  nameCode : String
  homepage : String
  providerType : String
  email : String
deriving DecidableEq, Repr

/-- Fetched representation of a provider; `none` fields are missing keys. -/
structure ProviderData where
  name : Option String
  country : Option String
  countryCode : Option String
  description : Option String
  nameCode : Option String
  homepage : Option String
  providerType : Option String
  email : Option String
deriving DecidableEq, Repr

/-- The fixed enumeration of provider types accepted by `update_provider`
(repox.py lines 398-409). -/
def providerTypes : List String :=
  ["ARCHIVE", "MUSEUM", "LIBRARY", "AUDIO_VISUAL_ARCHIVE", "RESEARCH_EDUCATIONAL",
   "CROSS_SECTOR", "PUBLISHER", "PRIVATE", "AGGREGATOR", "UNKNOWN"]

/-- Merge performed by `Repox.update_provider` (repox.py lines 377-423) on
the fetched `old_data`; the result is the payload of the PUT request.
Only the `country` lookup is wrapped in `try/except KeyError` in the
source (lines 383-387), so only that field substitutes `""` when missing;
every other missing field is an uncaught `KeyError` (`none` here).  A
non-empty `provider_type` outside `providerTypes` silently falls back to
the stored value (lines 398-410). -/
def update_provider (provider_id name country country_code description name_code
    homepage provider_type email : String) (old_data : ProviderData) :
    Option ProviderPayload := do
  let name ← if name = "" then old_data.name else pure name
  let country := if country = "" then old_data.country.getD "" else country
  let country_code ← if country_code = "" then old_data.countryCode else pure country_code
  let description ← if description = "" then old_data.description else pure description
  let name_code ← if name_code = "" then old_data.nameCode else pure name_code
  let homepage ← if homepage = "" then old_data.homepage else pure homepage
  let provider_type ←
    if provider_type = "" then old_data.providerType
    else if provider_type ∈ providerTypes then pure provider_type
    else old_data.providerType
  let email ← if email = "" then old_data.email else pure email
  pure { id := provider_id, name := name, country := country,
         countryCode := country_code, description := description,
         nameCode := name_code, homepage := homepage,
         providerType := provider_type, email := email }

/-! ### Metadata-format lookup (`__metadata_helper`) -/

/-- ASCII lower-casing of a string, modelling Python's `str.lower` on the
ASCII format names of the source (`metadata_format.lower()`, line 917). -/
def pyLower (s : String) : String := String.mk (s.data.map Char.toLower)

/-- The static format table of `Repox.__metadata_helper` (repox.py lines
871-916), transcribed verbatim: note the mixed-case keys `ISO2709`,
`MarcXchange`, `NLM-AI`, `NLM-Book`, and the misspelled `schmea` key of
the `ISO2709` entry, both exactly as in the source. -/
def formats : List (String × List (String × String)) :=
  [("edm", [("schema", "http://www.europeana.eu/schemas/edm/EDM.xsd"),
            ("namespace", "http://www.europeana.eu/schemas/edm/")]),
   ("ese", [("schema", "http://www.europeana.eu/schemas/ese/ESE-V3.4.xsd"),
            ("namespace", "http://www.europeana.eu/schemas/ese/")]),
   ("ISO2709", [("schmea", "info:lc/xmlns/marcxchange-v1.xsd"),
            ("namespace", "info:lc/xmlns/marcxchange-v1")]),
   ("lido", [("schema", "http://www.lido-schema.org/schema/v1.0/lido-v1.0.xsd"),
            ("namespace", "http://www.lido-schema.org")]),
   ("MarcXchange", [("namespace", "info:lc/xmlns/marcxchange-v1"),
            ("schema", "info:lc/xmlns/marcxchange-v1.xsd")]),
   ("mods", [("schema", "http://www.loc.gov/standards/mods/v3/mods-3-5.xsd"),
            ("namespace", "http://www.loc.gov/mods/v3")]),
   ("NLM-AI", [("schema", "ncbi-mathml2/mathml2.xsd"),
            ("namespace", "http://www.w3.org/1998/Math/MathML")]),
   ("NLM-Book", [("namespace", "http://www.w3.org/1998/Math/MathML"),
            ("schema", "ncbi-mathml2/mathml2.xsd")]),
   ("oai_dc", [("schema", "http://www.openarchives.org/OAI/2.0/oai_dc.xsd"),
            ("namespace", "http://www.openarchives.org/OAI/2.0/")]),
   ("oai_qdc", [("schema", "http://worldcat.org/xmlschemas/qdc/1.0/qdc-1.0.xsd"),
            ("namespace", "http://worldcat.org/xmlschemas/qdc-1.0")]),
   ("tel", [("schema", "http://www.europeana.eu/schemas/ese/ESE-V3.4.xsd"),
            ("namespace", "http://krait.kb.nl/coop/tel/handbook/telterms.html")])]

/-- Result of `Repox.__metadata_helper` (repox.py lines 854-921), i.e. the
value under the `result` key of the returned dict: the lower-cased format
name is looked up in `formats`, and a miss yields the empty
schema/namespace entry instead of raising. -/
def metadata_helper (metadata_format : String) : List (String × String) :=
  match lookupEntry formats (pyLower metadata_format) with
  | some entry => entry
  | none => [("schema", ""), ("namespace", "")]

/-! ### Datasets (`update_oai_dataset`) -/

/-- Value stored in a dataset's `dataSource` JSON object: the source mixes
strings and the boolean `isSample`. -/
inductive DSVal where
  | str (s : String)
  | bool (b : Bool)
deriving DecidableEq, Repr

/-- Python dict assignment `d[k] = v`: an existing key is overwritten in
place, a new key is appended (insertion order). -/
def setKey (d : List (String × DSVal)) (k : String) (v : DSVal) :
    List (String × DSVal) :=
  if d.any (fun p => p.1 == k) then
    d.map (fun p => if p.1 == k then (k, v) else p)
  else d ++ [(k, v)]

/-- Python truthiness test `v != ""` of the merge loop of
`update_oai_dataset` (line 820): every string is compared to `""`, while a
boolean (the `isSample` entry) is never equal to `""` in Python, so it
always passes the test. -/
def dsvalNeEmpty : DSVal → Bool
  | .str s => s != ""
  | .bool _ => true

/-- Fetched representation of a dataset, as used by `update_oai_dataset`:
the nested `dataSource` object plus the `name`/`nameCode` keys that the
merge may overwrite. -/
structure DatasetData where
  dataSource : List (String × DSVal)
  name : String
  nameCode : String
deriving DecidableEq, Repr

/-- Merge performed by `Repox.update_oai_dataset` (repox.py lines 802-831)
on the fetched `old_data`; the result is the payload of the PUT request.
When a non-empty `metadata_format` is given, the schema/namespace from
`metadata_helper` are added to the override dict if the schema is
non-empty (`format_data["result"]["schema"]`, a `KeyError` if the entry
has no `schema` key, hence the `Option`).  Every override entry that is
not equal to `""` — including the boolean `is_sample`, which never is —
is then written into `old_data["dataSource"]`. -/
def update_oai_dataset (dataset_id export_dir metadata_format description : String)
    (is_sample : Bool) (oai_url set_name name name_code : String)
    (old_data : DatasetData) : Option DatasetData := do
  let data_source_data : List (String × DSVal) :=
    [("exportDir", DSVal.str export_dir),
     ("description", DSVal.str description),
     ("oaiSourceURL", DSVal.str oai_url),
     ("isSample", DSVal.bool is_sample),
     ("oaiSet", DSVal.str set_name)]
  let data_source_data ←
    if metadata_format != "" then do
      let format_data := metadata_helper metadata_format
      let schema ← lookupEntry format_data "schema"
      if schema != "" then do
        let ns ← lookupEntry format_data "namespace"
        pure (data_source_data ++
          [("schema", DSVal.str schema), ("namespace", DSVal.str ns),
           ("metadataFormat", DSVal.str metadata_format)])
      else pure data_source_data
    else pure data_source_data
  let merged := data_source_data.foldl
    (fun acc kv => if dsvalNeEmpty kv.2 then setKey acc kv.1 kv.2 else acc)
    old_data.dataSource
  let result := { old_data with dataSource := merged }
  let result := if name != "" then { result with name := name } else result
  let result := if name_code != "" then { result with nameCode := name_code } else result
  pure result

/-! ### Records (`get_record`) -/

/-- Body of the response to the `records?recordId=` GET: either it decodes
as a JSON object (modelled as the association list of its string fields)
or JSON decoding fails. -/
inductive RecordBody where
  | invalid
  | json (fields : List (String × String))
deriving DecidableEq, Repr

/-- The fixed descriptive error string of `get_record` (repox.py lines
1416-1419). -/
def repoxErrorString : String :=
  "REPOX Error: This is a generic error and is thrown when Repox can\x27t find a matching metadata.  This can be caused by an OAI record with the status of deleted."

/-- Result of `Repox.get_record` (repox.py lines 1410-1419): `.ok` is a
normal return, `.error` an exception escaping to the caller.  The source
wraps `resp.json()["result"]` in `try/except json.decoder.JSONDecodeError`
only: a body that fails JSON decoding is converted to `repoxErrorString`,
while a decoded body without a `result` key raises an uncaught
`KeyError`. -/
def get_record (resp : RecordBody) : Except String String :=
  match resp with
  | .invalid => .ok repoxErrorString
  | .json fields =>
    match lookupEntry fields "result" with
    | some v => .ok v
    | none => .error "KeyError"

/-! ### Harvest scheduling (`schedule_harvest`, `schedule_weekly_harvest`)

The wall clock is an ambient input of these methods (`arrow.utcnow()
.to("local")`).  It is modelled by explicit parameters: `nowTimePlus15`
stands for `now.shift(minutes=15).format("HH:mm")` and `nowDate` for
`now.format("DD/MM/YYYY")`.  For the weekly variant the current local
date is modelled as an absolute day number `today : Nat` (with day `0`
chosen to be a Sunday), so that `now.format("dddd")` is `dayName today`
and `now.shift(days=k)` falls on day `today + k`; the payload keeps the
day number where the source formats it as `"DD/MM/YYYY"`, an injective
rendering of calendar days. -/

/-- JSON payload POSTed by `schedule_harvest` (repox.py lines 1145-1152). -/
structure HarvestSchedulePayload where
  taskType : String
  id : String
  frequency : String
  xmonths : Int
  time : String
  date : String
deriving DecidableEq, Repr

/-- Embedding of `Repox.schedule_harvest` (repox.py lines 1103-1159).  The
outer `if time == "NOT SET" or date == "NOT SET"` of the source only
guards the clock read; the two inner conditionals are modelled directly.
Returns the status code reported to the caller together with the submitted
payload; `incremental` only appears in the query string of the URL.  No
validation of `frequency` is performed. -/
def schedule_harvest (nowTimePlus15 nowDate : String)
    (dataset_id frequency time date : String) (xmonths : Int) (incremental : Bool)
    (server : HarvestSchedulePayload → Nat) : Nat × HarvestSchedulePayload :=
  let time := if time = "NOT SET" then nowTimePlus15 else time
  let date := if date = "NOT SET" then nowDate else date
  let xmonths := if frequency = "XMONTHLY" ∧ xmonths = 0 then 1 else xmonths
  let payload : HarvestSchedulePayload :=
    { taskType := "SCHEDULED", id := "", frequency := frequency,
      xmonths := xmonths, time := time, date := date }
  (server payload, payload)

/-- The deque of canonical day names of `schedule_weekly_harvest`
(repox.py lines 1185-1195). -/
def days_of_week : List String :=
  ["Sunday", "Monday", "Tuesday", "Wednesday", "Thursday", "Friday", "Saturday"]

/-- English weekday name of the absolute day number `n`, day `0` being a
Sunday; models `now.format("dddd")` when `now` falls on day `n`. -/
def dayName (n : Nat) : String := days_of_week.getD (n % 7) ""

/-- JSON payload POSTed by `schedule_weekly_harvest` (repox.py lines
1206-1213); `date` is the absolute day number that the source renders as
`"DD/MM/YYYY"`. -/
structure WeeklySchedulePayload where
  taskType : String
  id : String
  frequency : String
  xmonths : Int
  time : String
  date : Nat
deriving DecidableEq, Repr

/-- Embedding of `Repox.schedule_weekly_harvest` (repox.py lines
1161-1219).  A `day_of_week` outside `days_of_week` returns `500` before
the clock is read and before any request is issued (the `none` second
component records that no payload was submitted).  Otherwise the deque is
rotated left by today's index (`deque.rotate(-today)` = `List.rotate`),
the requested day's index in the rotated deque is the shift in days, a
zero shift is replaced by `7`, and the payload is POSTed. -/
def schedule_weekly_harvest (today : Nat) (nowTimePlus15 : String)
    (dataset_id day_of_week time : String)
    (server : WeeklySchedulePayload → Nat) : Nat × Option WeeklySchedulePayload :=
  if day_of_week ∉ days_of_week then (500, none)
  else
    let todayIdx := days_of_week.indexOf (dayName today)
    let rotated := days_of_week.rotate todayIdx
    let shift_time := rotated.indexOf day_of_week
    let shift_time := if shift_time = 0 then 7 else shift_time
    let time := if time = "Not Set" then nowTimePlus15 else time
    let payload : WeeklySchedulePayload :=
      { taskType := "SCHEDULED", id := "", frequency := "WEEKLY", xmonths := 0,
        time := time, date := today + shift_time }
    (server payload, some payload)

/-! ### Recently ingested sets (`get_recently_ingested_sets_by_provider`,
`get_recently_ingested_sets_by_aggregator`)

The remote reads these combinators perform are collected in `RepoxEnv`.
Python's `list.sort(key=operator.itemgetter(1), reverse=True)` is a stable
descending sort by the second tuple component, comparing strings
lexicographically by code point; any stable sort algorithm computes the
same list, and it is modelled by `List.insertionSort` with the relation
`dateGE` (Mathlib's `insertionSort` is stable). -/

/-- Remote reads used by the aggregation combinators:
`get_list_of_sets_from_provider` (dataset ids), `get_last_ingest_date_of_set`,
and `get_list_of_providers` (provider ids). -/
structure RepoxEnv where
  setsOfProvider : String → List String
  lastIngestDate : String → String
  providersOfAggregator : String → List String

/-- Lexicographic `≤` on lists of characters, by code point — the string
comparison Python's tuple sort key uses.  (Lean's own `String` order does
not reduce in the kernel, so the order is spelled out structurally.) -/
def charListLe : List Char → List Char → Bool
  | [], _ => true
  | _ :: _, [] => false
  | a :: as, b :: bs => if a = b then charListLe as bs else decide (a < b)

/-- Lexicographic `≤` on strings, by code point, as compared by Python. -/
def strLe (a b : String) : Bool := charListLe a.data b.data

/-- Ordering relation of the descending sort: `a` may precede `b` exactly
when `b`'s last-ingest date is at most `a`'s. -/
def dateGE (a b : String × String) : Prop := strLe b.2 a.2 = true

instance : DecidableRel dateGE := fun _ _ => inferInstanceAs (Decidable (_ = true))

/-- Stable descending sort by the date component, modelling
`list.sort(key=operator.itemgetter(1), reverse=True)`. -/
def sortByDateDesc (l : List (String × String)) : List (String × String) :=
  List.insertionSort dateGE l

/-- Models `arrow.get(s, "MM/DD/YYYY").format("YYYY-MM-DD")` on the
last-ingest strings (`"MM/DD/YYYY HH:mm:ss"`): a string starting with two
digits, a slash, two digits, a slash and four digits is reformatted to
ISO order; anything else raises `ParserError` (`none`). -/
def mdyToIso (s : String) : Option String :=
  match s.data with
  | m1 :: m2 :: '/' :: d1 :: d2 :: '/' :: y1 :: y2 :: y3 :: y4 :: _ =>
    if m1.isDigit && m2.isDigit && d1.isDigit && d2.isDigit &&
       y1.isDigit && y2.isDigit && y3.isDigit && y4.isDigit then
      some (String.mk [y1, y2, y3, y4, '-', m1, m2, '-', d1, d2])
    else none
  | _ => none

/-- Models `arrow.get(since, "YYYY-MM-DD").format("YYYY-MM-DD")` on the
cutoff argument: the identity on well-shaped ISO dates, a `ParserError`
(`none`) otherwise.  This re-parse happens inside the loop body and
outside the `try`, so its failure aborts the whole call. -/
def isoNormalize (s : String) : Option String :=
  match s.data with
  | [y1, y2, y3, y4, '-', m1, m2, '-', d1, d2] =>
    if y1.isDigit && y2.isDigit && y3.isDigit && y4.isDigit &&
       m1.isDigit && m2.isDigit && d1.isDigit && d2.isDigit then
      some s
    else none
  | _ => none

/-- The collection loop of `get_recently_ingested_sets_by_provider`
(repox.py lines 1544-1567), before the sort: with the default `since`
sentinel `"YYYY-MM-DD"` every dataset contributes its
`(id, last-ingest-date)` pair; otherwise `since` is re-parsed (uncaught
failure aborts) and a pair is kept when its reformatted date compares
strictly greater than `since`, datasets whose date fails to parse being
skipped (`except arrow.parser.ParserError: pass`). -/
def collectPairs (env : RepoxEnv) (since : String) :
    List String → Option (List (String × String))
  | [] => some []
  | ds :: rest =>
    if since = "YYYY-MM-DD" then
      (collectPairs env since rest).map (fun l => (ds, env.lastIngestDate ds) :: l)
    else
      match isoNormalize since with
      | none => none
      | some s =>
        match mdyToIso (env.lastIngestDate ds) with
        | none => collectPairs env since rest
        | some d =>
          if strLe d s then collectPairs env since rest
          else (collectPairs env since rest).map (fun l => (ds, env.lastIngestDate ds) :: l)

/-- Embedding of `Repox.get_recently_ingested_sets_by_provider` (repox.py
lines 1509-1569): collect, then stable descending sort by date. -/
def get_recently_ingested_sets_by_provider (env : RepoxEnv)
    (provider_id since : String) : Option (List (String × String)) :=
  (collectPairs env since (env.setsOfProvider provider_id)).map sortByDateDesc

/-- The provider loop of `get_recently_ingested_sets_by_aggregator`
(repox.py lines 1611-1618): the per-provider results (each already
sorted) are concatenated in provider order. -/
def collectAllProviders (env : RepoxEnv) (since : String) :
    List String → Option (List (String × String))
  | [] => some []
  | p :: ps => do
    let s ← get_recently_ingested_sets_by_provider env p since
    let rest ← collectAllProviders env since ps
    pure (s ++ rest)

/-- Embedding of `Repox.get_recently_ingested_sets_by_aggregator`
(repox.py lines 1571-1620): concatenate the per-provider results, then
stable descending sort by date. -/
def get_recently_ingested_sets_by_aggregator (env : RepoxEnv)
    (aggregator_id since : String) : Option (List (String × String)) :=
  (collectAllProviders env since (env.providersOfAggregator aggregator_id)).map
    sortByDateDesc

/-! ### Order lemmas for the date comparison -/

theorem charListLe_refl : ∀ x : List Char, charListLe x x = true := by
  intro x
  induction x with
  | nil => rfl
  | cons a as ih => simp [charListLe, ih]

theorem charListLe_total : ∀ x y : List Char,
    charListLe x y = true ∨ charListLe y x = true := by
  intro x
  induction x with
  | nil => intro y; left; rfl
  | cons a as ih =>
    intro y
    cases y with
    | nil => right; rfl
    | cons b bs =>
      by_cases hab : a = b
      · subst hab
        rcases ih bs with h | h
        · left; simpa [charListLe] using h
        · right; simpa [charListLe] using h
      · rcases lt_or_gt_of_ne hab with h | h
        · left; simp [charListLe, hab, h]
        · right; simp [charListLe, Ne.symm hab, h, not_lt_of_gt h]

theorem charListLe_trans : ∀ x y z : List Char,
    charListLe x y = true → charListLe y z = true → charListLe x z = true := by
  intro x
  induction x with
  | nil => intro y z _ _; rfl
  | cons a as ih =>
    intro y z hxy hyz
    cases y with
    | nil => simp [charListLe] at hxy
    | cons b bs =>
      cases z with
      | nil => simp [charListLe] at hyz
      | cons c cs =>
        by_cases hab : a = b <;> by_cases hbc : b = c
        · subst hab; subst hbc
          simp only [charListLe, if_pos rfl] at hxy hyz ⊢
          exact ih bs cs hxy hyz
        · subst hab
          simp only [charListLe, if_neg hbc] at hyz
          simp [charListLe, hbc, hyz]
        · subst hbc
          simp only [charListLe, if_neg hab] at hxy
          simp [charListLe, hab, hxy]
        · simp only [charListLe, if_neg hab, if_neg hbc, decide_eq_true_eq] at hxy hyz
          have hac : a < c := lt_trans hxy hyz
          simp [charListLe, ne_of_lt hac, hac]

instance : IsTotal (String × String) dateGE :=
  ⟨fun a b => charListLe_total b.2.data a.2.data⟩

instance : IsTrans (String × String) dateGE :=
  ⟨fun _ _ _ h1 h2 => charListLe_trans _ _ _ h2 h1⟩

/-! ### Stability lemmas for the descending sort -/

theorem filter_orderedInsert_eq_date (d : String) (a : String × String)
    (l : List (String × String)) (ha : a.2 = d) :
    (l.orderedInsert dateGE a).filter (fun q => q.2 == d)
      = a :: l.filter (fun q => q.2 == d) := by
  induction l with
  | nil => simp [List.orderedInsert, ha]
  | cons b bs ih =>
    by_cases hab : dateGE a b
    · simp only [List.orderedInsert, if_pos hab]
      simp [ha]
    · have hbd : b.2 ≠ d := by
        intro hb
        exact hab (by simp only [dateGE, ha, hb]; exact charListLe_refl d.data)
      simp only [List.orderedInsert, if_neg hab]
      simp [hbd, ih]

theorem filter_orderedInsert_ne_date (d : String) (a : String × String)
    (l : List (String × String)) (ha : a.2 ≠ d) :
    (l.orderedInsert dateGE a).filter (fun q => q.2 == d)
      = l.filter (fun q => q.2 == d) := by
  induction l with
  | nil => simp [List.orderedInsert, ha]
  | cons b bs ih =>
    by_cases hab : dateGE a b
    · simp only [List.orderedInsert, if_pos hab]
      simp [ha]
    · simp only [List.orderedInsert, if_neg hab]
      by_cases hbd : b.2 = d <;> simp [hbd, ih]

theorem filter_sortByDateDesc (d : String) (l : List (String × String)) :
    (sortByDateDesc l).filter (fun q => q.2 == d) = l.filter (fun q => q.2 == d) := by
  induction l with
  | nil => rfl
  | cons a l ih =>
    show ((List.insertionSort dateGE l).orderedInsert dateGE a).filter _ = _
    by_cases ha : a.2 = d
    · rw [filter_orderedInsert_eq_date d a _ ha]
      simp only [List.filter_cons]
      simp [ha]
      exact ih
    · rw [filter_orderedInsert_ne_date d a _ ha]
      simp only [List.filter_cons]
      simp [ha]
      exact ih

theorem collectAllProviders_eq (env : RepoxEnv) (since : String) (ps : List String)
    (f : String → List (String × String))
    (hf : ∀ q ∈ ps, collectPairs env since (env.setsOfProvider q) = some (f q)) :
    collectAllProviders env since ps
      = some ((ps.map (fun q => sortByDateDesc (f q))).flatten) := by
  induction ps with
  | nil => rfl
  | cons p ps ih =>
    have hp := hf p (by simp)
    have hrest := ih (fun q hq => hf q (by simp [hq]))
    simp [collectAllProviders, get_recently_ingested_sets_by_provider, hp, hrest]

theorem join_sortByDateDesc_perm (ps : List String)
    (f : String → List (String × String)) :
    List.Perm ((ps.map (fun q => sortByDateDesc (f q))).flatten)
      ((ps.map f).flatten) := by
  induction ps with
  | nil => rfl
  | cons p ps ih =>
    simp only [List.map_cons, List.flatten_cons]
    exact (List.perm_insertionSort dateGE (f p)).append ih

theorem filter_join_sortByDateDesc (d : String) (ps : List String)
    (f : String → List (String × String)) :
    ((ps.map (fun q => sortByDateDesc (f q))).flatten).filter (fun q => q.2 == d)
      = ((ps.map f).flatten).filter (fun q => q.2 == d) := by
  induction ps with
  | nil => rfl
  | cons p ps ih =>
    simp only [List.map_cons, List.flatten_cons, List.filter_append, ih,
      filter_sortByDateDesc]

/-! ### Claim theorems -/

/-- C10: for every call to `create_aggregator` with `name_code` equal to the
empty string (whether omitted, the default, or passed explicitly), the
posted payload's `nameCode` equals `aggregator_id`, so an aggregator with a
legitimately empty `nameCode` cannot be created through this operation. -/
theorem create_aggregator_empty_name_code (aggregator_id aggregator_name homepage : String) :
    (create_aggregator aggregator_id aggregator_name "" homepage).nameCode
      = aggregator_id := rfl

/-- C1: the claimed merge contract fails on the code at two points,
evaluated here at concrete inputs.  First, `update_aggregator` with an
unsupplied `homepage` submits `""` instead of the fetched
`"http://old.example"`, because source line 196 compares
(`homepage == old_data["homepage"]`) instead of assigning — contradicting
the method's own docstring.  Second, `update_oai_dataset` with an
unsupplied `is_sample` overwrites the fetched `isSample = true` with the
default `False`, because the Python guard `v != ""` is true for every
boolean. -/
theorem update_merge_drops_fields :
    update_aggregator "agg1" "" "" ""
      { name := some "Old Name", nameCode := some "old_code",
        homepage := some "http://old.example" }
      = some { id := "agg1", name := "Old Name", nameCode := "old_code", homepage := "" }
    ∧ update_oai_dataset "set1" "" "" "" false "" "" "" ""
        { dataSource := [("isSample", DSVal.bool true)], name := "n", nameCode := "nc" }
      = some { dataSource := [("isSample", DSVal.bool false)], name := "n", nameCode := "nc" } :=
  ⟨rfl, rfl⟩

/-- C2: for every call to `update_provider` whose `provider_type` is
non-empty and outside the fixed enumeration, the submitted payload's
`providerType` is the fetched resource's stored value — the invalid value
is never propagated, and the merge still produces a payload (the call is
not rejected locally). -/
theorem update_provider_invalid_type_uses_stored (provider_id name country country_code
    description name_code homepage provider_type email : String) (old_data : ProviderData)
    (vn vc vcc vd vnc vhp vpt vem : String)
    (hn : old_data.name = some vn) (hc : old_data.country = some vc)
    (hcc : old_data.countryCode = some vcc) (hd : old_data.description = some vd)
    (hnc : old_data.nameCode = some vnc) (hhp : old_data.homepage = some vhp)
    (hpt : old_data.providerType = some vpt) (hem : old_data.email = some vem)
    (hne : provider_type ≠ "") (hinv : provider_type ∉ providerTypes) :
    (update_provider provider_id name country country_code description name_code
        homepage provider_type email old_data).map ProviderPayload.providerType
      = some vpt := by
  unfold update_provider
  rw [hn, hc, hcc, hd, hnc, hhp, hpt, hem]
  split_ifs <;> rfl

/-- Witness for C2 at a concrete invalid provider type. -/
theorem update_provider_invalid_type_uses_stored_witness :
    (update_provider "UTKr0" "" "" "" "" "" "" "COOL_LIBRARY" ""
      { name := some "UTK", country := some "United States", countryCode := some "al",
        description := some "", nameCode := some "", homepage := some "",
        providerType := some "LIBRARY", email := some "" }).map
      ProviderPayload.providerType = some "LIBRARY" :=
  update_provider_invalid_type_uses_stored "UTKr0" "" "" "" "" "" "" "COOL_LIBRARY" ""
    { name := some "UTK", country := some "United States", countryCode := some "al",
      description := some "", nameCode := some "", homepage := some "",
      providerType := some "LIBRARY", email := some "" }
    "UTK" "United States" "al" "" "" "" "LIBRARY" ""
    rfl rfl rfl rfl rfl rfl rfl rfl (by decide) (by decide)

/-- C5 counterexample: a fetched representation missing the `name` field
makes `update_provider` abort with an uncaught `KeyError` (`none`) instead
of substituting an empty value, refuting the claim that every missing
field is substituted and the failure branch is unreachable. -/
theorem update_provider_missing_name_aborts :
    update_provider "p1" "" "" "" "" "" "" "" ""
      { name := none, country := some "United States", countryCode := some "al",
        description := some "", nameCode := some "", homepage := some "",
        providerType := some "LIBRARY", email := some "" } = none := rfl

/-- ASCII lower-casing never produces the capital letter `I`: in the true
branch the output code point lies in `[97, 122]`, in the false branch the
input was outside `[65, 90]` while `I` is `73`. -/
theorem toLower_ne_upper_I (c : Char) : Char.toLower c ≠ 'I' := by
  show (if c.toNat ≥ 65 ∧ c.toNat ≤ 90 then Char.ofNat (c.toNat + 32) else c) ≠ 'I'
  split
  · rename_i h
    have hb : ∀ n : Nat, n < 91 → 65 ≤ n → Char.ofNat (n + 32) ≠ 'I' := by decide
    exact hb c.toNat (Nat.lt_succ_of_le h.2) h.1
  · rename_i h
    intro hc
    subst hc
    exact h (by decide)

/-- The lower-cased query of `metadata_helper` can never equal the
mixed-case table key `ISO2709` (its first letter is a capital `I`). -/
theorem pyLower_ne_iso (s : String) : pyLower s ≠ "ISO2709" := by
  intro h
  have hdata : s.data.map Char.toLower = "ISO2709".data := congrArg String.data h
  cases hs : s.data with
  | nil =>
    rw [hs] at hdata
    exact absurd hdata (by decide)
  | cons c cs =>
    rw [hs, show "ISO2709".data = ['I', 'S', 'O', '2', '7', '0', '9'] from rfl] at hdata
    simp only [List.map_cons, List.cons.injEq] at hdata
    exact toLower_ne_upper_I c hdata.1

/-- Every entry `metadata_helper` can actually return carries both a
`schema` and a `namespace` key: the miss entry has both, and of the table
entries only `ISO2709` lacks `schema` (the `schmea` typo), but a
lower-cased query can never match that key — so the `KeyError`-prone reads
`format_data["result"]["schema"]`/`["namespace"]` of `update_oai_dataset`
never fail. -/
theorem metadata_helper_entry_keys (mf : String) :
    (lookupEntry (metadata_helper mf) "schema").isSome = true
    ∧ (lookupEntry (metadata_helper mf) "namespace").isSome = true := by
  have haux : ∀ pr ∈ formats, pr.1 ≠ "ISO2709" →
      (lookupEntry pr.2 "schema").isSome = true
      ∧ (lookupEntry pr.2 "namespace").isSome = true := by decide
  unfold metadata_helper
  cases hf : lookupEntry formats (pyLower mf) with
  | none => exact ⟨rfl, rfl⟩
  | some entry =>
    unfold lookupEntry at hf
    cases hfind : List.find? (fun p => p.1 == pyLower mf) formats with
    | none =>
      rw [hfind] at hf
      simp at hf
    | some p =>
      rw [hfind] at hf
      simp only [Option.map_some'] at hf
      obtain rfl : p.2 = entry := by simpa using hf
      have hmem := List.mem_of_find?_eq_some hfind
      have hkey : (p.1 == pyLower mf) = true := by
        simpa using List.find?_some hfind
      have hne : p.1 ≠ "ISO2709" := fun hiso =>
        pyLower_ne_iso mf ((eq_of_beq hkey).symm.trans hiso)
      exact haux p hmem hne

/-- The merge of `update_oai_dataset` always completes: it only assigns
into the fetched representation (never reads an updatable field from it),
and its single `KeyError`-prone read — the format table's schema access —
is unreachable by `metadata_helper_entry_keys`. -/
theorem update_oai_dataset_isSome (dataset_id export_dir metadata_format
    description : String) (is_sample : Bool) (oai_url set_name name name_code : String)
    (old_data : DatasetData) :
    (update_oai_dataset dataset_id export_dir metadata_format description is_sample
      oai_url set_name name name_code old_data).isSome = true := by
  obtain ⟨s, hs⟩ := Option.isSome_iff_exists.mp (metadata_helper_entry_keys metadata_format).1
  obtain ⟨ns, hns⟩ := Option.isSome_iff_exists.mp (metadata_helper_entry_keys metadata_format).2
  by_cases h1 : (metadata_format != "") = true
  · by_cases h2 : (s != "") = true
    · have hv : s ≠ "" := by simpa using h2
      simp [update_oai_dataset, h1, hs, hns, hv]
    · have hv : s = "" := by simpa using h2
      simp [update_oai_dataset, h1, hs, hv]
  · simp [update_oai_dataset, h1]

/-- When every optional argument of `update_provider` is left at the empty
sentinel, a completed merge implies that every field other than `country`
was present in the fetched representation: each of those lookups happens
unguarded, so any `none` among them would have aborted the merge. -/
theorem update_provider_defaults_reads_fields (provider_id : String)
    (old_data : ProviderData)
    (h : (update_provider provider_id "" "" "" "" "" "" "" "" old_data).isSome = true) :
    old_data.name.isSome = true ∧ old_data.countryCode.isSome = true
    ∧ old_data.description.isSome = true ∧ old_data.nameCode.isSome = true
    ∧ old_data.homepage.isSome = true ∧ old_data.providerType.isSome = true
    ∧ old_data.email.isSome = true := by
  unfold update_provider at h
  cases h1 : old_data.name with
  | none => simp [h1] at h
  | some v1 =>
  cases h2 : old_data.countryCode with
  | none => simp [h1, h2] at h
  | some v2 =>
  cases h3 : old_data.description with
  | none => simp [h1, h2, h3] at h
  | some v3 =>
  cases h4 : old_data.nameCode with
  | none => simp [h1, h2, h3, h4] at h
  | some v4 =>
  cases h5 : old_data.homepage with
  | none => simp [h1, h2, h3, h4, h5] at h
  | some v5 =>
  cases h6 : old_data.providerType with
  | none => simp [h1, h2, h3, h4, h5, h6] at h
  | some v6 =>
  cases h7 : old_data.email with
  | none => simp [h1, h2, h3, h4, h5, h6, h7] at h
  | some v7 =>
    exact ⟨by simp [h1], by simp [h2], by simp [h3], by simp [h4],
      by simp [h5], by simp [h6], by simp [h7]⟩

/-- When every optional argument of `update_aggregator` is left at the
empty sentinel, a completed merge implies every field was present in the
fetched representation — including `homepage`, whose value is looked up
(and then discarded by the line-196 comparison) all the same. -/
theorem update_aggregator_defaults_reads_fields (aggregator_id : String)
    (old_data : AggregatorData)
    (h : (update_aggregator aggregator_id "" "" "" old_data).isSome = true) :
    old_data.name.isSome = true ∧ old_data.nameCode.isSome = true
    ∧ old_data.homepage.isSome = true := by
  unfold update_aggregator at h
  cases h1 : old_data.name with
  | none => simp [h1] at h
  | some v1 =>
  cases h2 : old_data.nameCode with
  | none => simp [h1, h2] at h
  | some v2 =>
  cases h3 : old_data.homepage with
  | none => simp [h1, h2, h3] at h
  | some v3 =>
    exact ⟨by simp [h1], by simp [h2], by simp [h3]⟩

/-- C5 amended: in `update_provider` a missing `country` in the fetched
representation substitutes `""` and the merge completes (its lookup alone
is wrapped in `try/except KeyError`); a missing value for any other
unsupplied field of `update_provider`, and for any unsupplied field of
`update_aggregator`, aborts the merge with an uncaught `KeyError`; the
merge of `update_oai_dataset` only assigns into the fetched representation
and never reads an updatable field from it, so it completes for every
fetched representation and every call. -/
theorem update_merge_missing_field_behavior
    (provider_id aggregator_id : String)
    (oldpc oldpm : ProviderData) (oldam : AggregatorData)
    (vn vcc vd vnc vhp vpt vem : String)
    (dataset_id export_dir metadata_format description : String) (is_sample : Bool)
    (oai_url set_name ds_name ds_name_code : String) (old_ds : DatasetData)
    (hc : oldpc.country = none) (hn : oldpc.name = some vn)
    (hcc : oldpc.countryCode = some vcc) (hd : oldpc.description = some vd)
    (hnc : oldpc.nameCode = some vnc) (hhp : oldpc.homepage = some vhp)
    (hpt : oldpc.providerType = some vpt) (hem : oldpc.email = some vem)
    (hpm : oldpm.name = none ∨ oldpm.countryCode = none ∨ oldpm.description = none
      ∨ oldpm.nameCode = none ∨ oldpm.homepage = none ∨ oldpm.providerType = none
      ∨ oldpm.email = none)
    (ham : oldam.name = none ∨ oldam.nameCode = none ∨ oldam.homepage = none) :
    update_provider provider_id "" "" "" "" "" "" "" "" oldpc
      = some { id := provider_id, name := vn, country := "", countryCode := vcc,
               description := vd, nameCode := vnc, homepage := vhp,
               providerType := vpt, email := vem }
    ∧ update_provider provider_id "" "" "" "" "" "" "" "" oldpm = none
    ∧ update_aggregator aggregator_id "" "" "" oldam = none
    ∧ (update_oai_dataset dataset_id export_dir metadata_format description is_sample
        oai_url set_name ds_name ds_name_code old_ds).isSome = true := by
  refine ⟨?_, ?_, ?_, update_oai_dataset_isSome dataset_id export_dir metadata_format
    description is_sample oai_url set_name ds_name ds_name_code old_ds⟩
  · unfold update_provider
    rw [hn, hc, hcc, hd, hnc, hhp, hpt, hem]
    rfl
  · cases hres : update_provider provider_id "" "" "" "" "" "" "" "" oldpm with
    | none => rfl
    | some p =>
      exfalso
      have hfields := update_provider_defaults_reads_fields provider_id oldpm
        (by rw [hres]; rfl)
      rcases hpm with hm | hm | hm | hm | hm | hm | hm <;> rw [hm] at hfields <;>
        simp at hfields
  · cases hres : update_aggregator aggregator_id "" "" "" oldam with
    | none => rfl
    | some p =>
      exfalso
      have hfields := update_aggregator_defaults_reads_fields aggregator_id oldam
        (by rw [hres]; rfl)
      rcases ham with hm | hm | hm <;> rw [hm] at hfields <;> simp at hfields

/-- Witness for C5's amended statement: a provider with only `country`
missing completes with `""` substituted; a provider with `name` missing
and an aggregator with `homepage` missing abort; an OAI-dataset update
whose fetched representation has an entirely empty `dataSource` (every
field missing) still completes. -/
theorem update_merge_missing_field_behavior_witness :
    update_provider "UTKr0" "" "" "" "" "" "" "" ""
      { name := some "UTK", country := none, countryCode := some "al",
        description := some "", nameCode := some "", homepage := some "",
        providerType := some "LIBRARY", email := some "" }
      = some { id := "UTKr0", name := "UTK", country := "", countryCode := "al",
               description := "", nameCode := "", homepage := "",
               providerType := "LIBRARY", email := "" }
    ∧ update_provider "UTKr0" "" "" "" "" "" "" "" ""
        { name := none, country := some "United States", countryCode := some "al",
          description := some "", nameCode := some "", homepage := some "",
          providerType := some "LIBRARY", email := some "" } = none
    ∧ update_aggregator "agg1" "" "" ""
        { name := some "A", nameCode := some "B", homepage := none } = none
    ∧ (update_oai_dataset "bcpl" "/vagrant/export" "mods" "" true
        "http://u.example" "bcpl_set" "new name" "new code"
        { dataSource := [], name := "", nameCode := "" }).isSome = true :=
  update_merge_missing_field_behavior "UTKr0" "agg1"
    { name := some "UTK", country := none, countryCode := some "al",
      description := some "", nameCode := some "", homepage := some "",
      providerType := some "LIBRARY", email := some "" }
    { name := none, country := some "United States", countryCode := some "al",
      description := some "", nameCode := some "", homepage := some "",
      providerType := some "LIBRARY", email := some "" }
    { name := some "A", nameCode := some "B", homepage := none }
    "UTK" "al" "" "" "" "LIBRARY" ""
    "bcpl" "/vagrant/export" "mods" "" true "http://u.example" "bcpl_set"
    "new name" "new code" { dataSource := [], name := "", nameCode := "" }
    rfl rfl rfl rfl rfl rfl rfl rfl (Or.inl rfl) (Or.inr (Or.inr rfl))

/-- C6: the code contradicts the claimed case-insensitive lookup for the
table's own mixed-case entries, evaluated at `"MarcXchange"`: the query is
lower-cased to `"marcxchange"`, which is not a key, so the lookup misses
and returns the empty schema/namespace even though `formats` lists a
`MarcXchange` entry.  The all-lowercase entries do behave as claimed:
`"MODS"` and `"mods"` agree, and an unknown name yields the empty entry
rather than raising. -/
theorem metadata_helper_marcxchange_unreachable :
    metadata_helper "MarcXchange" = [("schema", ""), ("namespace", "")]
    ∧ lookupEntry formats "MarcXchange"
      = some [("namespace", "info:lc/xmlns/marcxchange-v1"),
              ("schema", "info:lc/xmlns/marcxchange-v1.xsd")]
    ∧ metadata_helper "MODS" = metadata_helper "mods"
    ∧ metadata_helper "unknown-format" = [("schema", ""), ("namespace", "")] :=
  ⟨rfl, rfl, rfl, rfl⟩

/-- C7 counterexample: a response body that decodes as JSON but lacks the
`result` key makes `get_record` raise an uncaught `KeyError` rather than
return the fixed error string, refuting the claim as stated. -/
theorem get_record_missing_result_key_raises :
    get_record (RecordBody.json [("results", "x")]) = Except.error "KeyError" := rfl

/-- C7 amended: `get_record` returns the fixed descriptive error string
exactly when the body fails JSON decoding (the only exception its
`try/except json.decoder.JSONDecodeError` catches); a decoded body without
the `result` key propagates a `KeyError` to the caller. -/
theorem get_record_amended_behavior (fields : List (String × String))
    (h : lookupEntry fields "result" = none) :
    get_record RecordBody.invalid = Except.ok repoxErrorString
    ∧ get_record (RecordBody.json fields) = Except.error "KeyError" := by
  constructor
  · rfl
  · simp [get_record, h]

/-- Witness for C7's amended statement at a concrete body. -/
theorem get_record_amended_behavior_witness :
    get_record RecordBody.invalid = Except.ok repoxErrorString
    ∧ get_record (RecordBody.json [("other", "x")]) = Except.error "KeyError" :=
  get_record_amended_behavior [("other", "x")] rfl

/-- C3: for every `day_of_week` outside the seven canonical English day
names, `schedule_weekly_harvest` returns the failure sentinel `500`
without issuing any network request: the result does not depend on the
`server` function and the submitted-payload component is `none`. -/
theorem schedule_weekly_harvest_invalid_day (today : Nat)
    (nowTimePlus15 dataset_id day_of_week time : String)
    (server : WeeklySchedulePayload → Nat)
    (h : day_of_week ∉ days_of_week) :
    schedule_weekly_harvest today nowTimePlus15 dataset_id day_of_week time server
      = (500, none) := by
  simp [schedule_weekly_harvest, h]

/-- Witness for C3 at the docstring's own example input `"Tomorrow"`. -/
theorem schedule_weekly_harvest_invalid_day_witness :
    schedule_weekly_harvest 3 "07:15" "nr" "Tomorrow" "Not Set" (fun _ => 201)
      = (500, none) :=
  schedule_weekly_harvest_invalid_day 3 "07:15" "nr" "Tomorrow" "Not Set"
    (fun _ => 201) (by decide)

/-- C4: for every call to `schedule_weekly_harvest` whose `day_of_week` is
the name of today's weekday (rotation offset `0`), the date of the
submitted payload is exactly `today + 7` — seven days ahead — and never
today's date. -/
theorem schedule_weekly_harvest_same_day_plus_seven (today : Nat)
    (nowTimePlus15 dataset_id time : String) (server : WeeklySchedulePayload → Nat) :
    (schedule_weekly_harvest today nowTimePlus15 dataset_id (dayName today) time
        server).2.map WeeklySchedulePayload.date = some (today + 7)
    ∧ (schedule_weekly_harvest today nowTimePlus15 dataset_id (dayName today) time
        server).2.map WeeklySchedulePayload.date ≠ some today := by
  have hk : today % 7 < 7 := Nat.mod_lt _ (by norm_num)
  have key : ∀ k : Nat, k < 7 →
      days_of_week.getD k "" ∈ days_of_week ∧
      (days_of_week.rotate (days_of_week.indexOf (days_of_week.getD k ""))).indexOf
        (days_of_week.getD k "") = 0 := by decide
  obtain ⟨hmem, hidx⟩ := key (today % 7) hk
  have hmem' : dayName today ∈ days_of_week := hmem
  have hidx' : (days_of_week.rotate (days_of_week.indexOf (dayName today))).indexOf
      (dayName today) = 0 := hidx
  constructor
  · simp [schedule_weekly_harvest, hmem', hidx']
  · simp [schedule_weekly_harvest, hmem', hidx']

/-- C9 counterexample: `schedule_harvest` performs no local validation of
`frequency`.  With the unrecognized frequency `"YEARLY"` and a remote that
answers `201`, the call returns the success code `201` — the result does
not indicate failure — and the payload propagates `"YEARLY"` verbatim. -/
theorem schedule_harvest_unrecognized_frequency_not_failing :
    "YEARLY" ∉ ["ONCE", "DAILY", "WEEKLY", "XMONTHLY"]
    ∧ (schedule_harvest "07:15" "01/01/2020" "bcpl" "YEARLY" "NOT SET" "NOT SET" 0 false
        (fun _ => 201)).1 = 201
    ∧ (schedule_harvest "07:15" "01/01/2020" "bcpl" "YEARLY" "NOT SET" "NOT SET" 0 false
        (fun _ => 201)).2.frequency = "YEARLY" :=
  ⟨by decide, rfl, rfl⟩

/-- C9 amended: with frequency `XMONTHLY` and month-count `0`, the
submitted payload's `xmonths` is `1`; for any frequency value — including
unrecognized ones — the payload carries the caller's frequency verbatim
and the returned result is whatever status the remote answers for that
payload (no local failure is produced). -/
theorem schedule_harvest_defaults (nowTimePlus15 nowDate dataset_id frequency time
    date : String) (xmonths : Int) (incremental : Bool)
    (server : HarvestSchedulePayload → Nat) :
    (frequency = "XMONTHLY" → xmonths = 0 →
      (schedule_harvest nowTimePlus15 nowDate dataset_id frequency time date xmonths
        incremental server).2.xmonths = 1)
    ∧ (schedule_harvest nowTimePlus15 nowDate dataset_id frequency time date xmonths
        incremental server).2.frequency = frequency
    ∧ (schedule_harvest nowTimePlus15 nowDate dataset_id frequency time date xmonths
        incremental server).1
      = server (schedule_harvest nowTimePlus15 nowDate dataset_id frequency time date
          xmonths incremental server).2 := by
  refine ⟨?_, rfl, rfl⟩
  intro h1 h2
  simp [schedule_harvest, h1, h2]

/-- Witness for C9's amended statement at a concrete `XMONTHLY` call with
month-count `0`. -/
theorem schedule_harvest_defaults_witness :
    ((schedule_harvest "07:15" "01/01/2020" "bcpl" "XMONTHLY" "01:00" "01/12/2019" 0
        false (fun _ => 201)).2.xmonths = 1)
    ∧ (schedule_harvest "07:15" "01/01/2020" "bcpl" "XMONTHLY" "01:00" "01/12/2019" 0
        false (fun _ => 201)).2.frequency = "XMONTHLY"
    ∧ (schedule_harvest "07:15" "01/01/2020" "bcpl" "XMONTHLY" "01:00" "01/12/2019" 0
        false (fun _ => 201)).1
      = (fun _ => 201) (schedule_harvest "07:15" "01/01/2020" "bcpl" "XMONTHLY" "01:00"
          "01/12/2019" 0 false (fun _ => 201)).2 :=
  ⟨(schedule_harvest_defaults "07:15" "01/01/2020" "bcpl" "XMONTHLY" "01:00" "01/12/2019"
      0 false (fun _ => 201)).1 rfl rfl,
   (schedule_harvest_defaults "07:15" "01/01/2020" "bcpl" "XMONTHLY" "01:00" "01/12/2019"
      0 false (fun _ => 201)).2.1,
   (schedule_harvest_defaults "07:15" "01/01/2020" "bcpl" "XMONTHLY" "01:00" "01/12/2019"
      0 false (fun _ => 201)).2.2⟩

/-- C8: whenever the collection loop of
`get_recently_ingested_sets_by_provider` yields the fetch-order pairs
`pairs` and the call returns `outP`, then `outP` is a permutation of
`pairs`, is sorted descending by the last-ingest date, and for every date
`d` keeps the pairs carrying `d` in fetch order (stability); likewise
`get_recently_ingested_sets_by_aggregator`'s result `outA` against its
fetch-order list, the provider-by-provider concatenation
`(ps.map f).flatten`. -/
theorem recently_ingested_sets_sorted_stable (env : RepoxEnv)
    (provider_id aggregator_id since d : String)
    (pairs : List (String × String)) (ps : List String)
    (f : String → List (String × String))
    (outP outA : List (String × String))
    (h1 : collectPairs env since (env.setsOfProvider provider_id) = some pairs)
    (h2 : get_recently_ingested_sets_by_provider env provider_id since = some outP)
    (h3 : env.providersOfAggregator aggregator_id = ps)
    (h4 : ∀ q ∈ ps, collectPairs env since (env.setsOfProvider q) = some (f q))
    (h5 : get_recently_ingested_sets_by_aggregator env aggregator_id since = some outA) :
    (List.Perm outP pairs ∧ List.Sorted dateGE outP
      ∧ outP.filter (fun q => q.2 == d) = pairs.filter (fun q => q.2 == d))
    ∧ (List.Perm outA ((ps.map f).flatten) ∧ List.Sorted dateGE outA
      ∧ outA.filter (fun q => q.2 == d)
        = ((ps.map f).flatten).filter (fun q => q.2 == d)) := by
  have hP : outP = sortByDateDesc pairs := by
    rw [get_recently_ingested_sets_by_provider, h1] at h2
    exact (Option.some_inj.mp h2).symm
  have hA : outA = sortByDateDesc ((ps.map (fun q => sortByDateDesc (f q))).flatten) := by
    rw [get_recently_ingested_sets_by_aggregator, h3,
      collectAllProviders_eq env since ps f h4] at h5
    exact (Option.some_inj.mp h5).symm
  subst hP
  subst hA
  exact ⟨⟨List.perm_insertionSort dateGE pairs, List.sorted_insertionSort dateGE pairs,
      filter_sortByDateDesc d pairs⟩,
    ⟨(List.perm_insertionSort dateGE _).trans (join_sortByDateDesc_perm ps f),
      List.sorted_insertionSort dateGE _,
      (filter_sortByDateDesc d _).trans (filter_join_sortByDateDesc d ps f)⟩⟩

/-- Witness for C8 at a concrete environment: one aggregator with one
provider owning three datasets, two of them tied on the ingest date, with
the default `since` sentinel. -/
theorem recently_ingested_sets_sorted_stable_witness :
    (List.Perm [("s1", "b"), ("s3", "b"), ("s2", "a")]
        [("s1", "b"), ("s2", "a"), ("s3", "b")]
      ∧ List.Sorted dateGE [("s1", "b"), ("s3", "b"), ("s2", "a")]
      ∧ [("s1", "b"), ("s3", "b"), ("s2", "a")].filter (fun q => q.2 == "b")
        = [("s1", "b"), ("s2", "a"), ("s3", "b")].filter (fun q => q.2 == "b"))
    ∧ (List.Perm [("s1", "b"), ("s3", "b"), ("s2", "a")]
        ((["prov1"].map (fun _ => [("s1", "b"), ("s2", "a"), ("s3", "b")])).flatten)
      ∧ List.Sorted dateGE [("s1", "b"), ("s3", "b"), ("s2", "a")]
      ∧ [("s1", "b"), ("s3", "b"), ("s2", "a")].filter (fun q => q.2 == "b")
        = ((["prov1"].map (fun _ => [("s1", "b"), ("s2", "a"), ("s3", "b")])).flatten).filter
            (fun q => q.2 == "b")) :=
  recently_ingested_sets_sorted_stable
    ⟨fun _ => ["s1", "s2", "s3"], fun ds => if ds = "s2" then "a" else "b",
      fun _ => ["prov1"]⟩
    "prov1" "agg1" "YYYY-MM-DD" "b"
    [("s1", "b"), ("s2", "a"), ("s3", "b")] ["prov1"]
    (fun _ => [("s1", "b"), ("s2", "a"), ("s3", "b")])
    [("s1", "b"), ("s3", "b"), ("s2", "a")] [("s1", "b"), ("s3", "b"), ("s2", "a")]
    rfl rfl rfl (by decide) rfl

end Repox
